import Mathlib

/-!
Verification of the affiliate-offer aggregation / scoring / caching pipeline.

This file is a shallow embedding of the Python sources into Lean:
Python floats are modelled as exact rationals (`Rat`), Python ints as `Int`,
optional values as `Option`, and the Google-Sheets store as an explicit
in-memory state (`CacheStore`).  Each definition mirrors one function of the
source tree (`app/models/offer.py`, `app/services/aggregator.py`,
`app/services/sheets_cache.py`, `app/services/keyword_analyzer.py`,
`app/services/brand_metrics.py`); the doc comment on a definition names the
function it embeds.
-/

/-- Python truthiness of an optional float: `None` and `0.0` are falsy,
every other value is truthy (used by the sources' `if self.epc:` style
guards). -/
def ratTruthy : Option Rat → Bool
  | none => false
  | some q => q != 0

/-- Python `int()` applied to a float: truncation toward zero. -/
def pyInt (x : Rat) : Int :=
  if x < 0 then -⌊-x⌋ else ⌊x⌋

/-- Round to the nearest integer, ties to the nearest even integer; this is
the rounding Python's builtin `round` uses. -/
def roundHalfEven (x : Rat) : Int :=
  if Int.fract x < 1 / 2 then ⌊x⌋
  else if 1 / 2 < Int.fract x then ⌊x⌋ + 1
  else if Even ⌊x⌋ then ⌊x⌋ else ⌊x⌋ + 1

/-- Python `round(x, 2)`: round half-to-even at two decimal places (the
model works on exact rationals rather than binary floats). -/
def round2 (x : Rat) : Rat :=
  (roundHalfEven (100 * x) : Rat) / 100

/-- The `Offer` pydantic model of `app/models/offer.py`: the normalized
record every provider produces.  Field names and optionality follow the
source; floats are `Rat`, ints are `Int`. -/
structure Offer where
  id : String
  name : String
  description : Option String := none
  network : String
  advertiser_name : String
  advertiser_id : String
  commission_type : Option String := none
  commission_value : Option Rat := none
  commission_currency : String := "USD"
  epc : Option Rat := none
  conversion_rate : Option Rat := none
  avg_sale_value : Option Rat := none
  popularity_score : Option Rat := none
  category : Option String := none
  subcategory : Option String := none
  tracking_url : Option String := none
  landing_page_url : Option String := none
  youtube_score : Option Rat := none
  search_interest : Option Int := none
  search_trend : Option String := none
  potential_score : Option Int := none
  potential_rating : Option String := none
  potential_analysis : Option String := none
  related_keywords : Option (List String) := none
  scalability_score : Option Int := none
  cookie_duration : Option Int := none
  traffic_monthly : Option String := none
  growth_percentage : Option String := none
  competition_level : Option String := none
  domain_authority : Option Int := none
  instagram_followers : Option String := none
deriving DecidableEq, Repr

/-- `Offer.calculate_youtube_score` (`app/models/offer.py`): sequential
accumulation guarded by Python truthiness; the commission branch keys on the
literal strings `"CPA"` and `"CPS"`; the result is `round(min(score, 100), 2)`.
The source also stores the result into `self.youtube_score`; the model
returns it. -/
def Offer.calculate_youtube_score (o : Offer) : Rat :=
  let score : Rat := 0
  let score : Rat :=
    if ratTruthy o.epc then score + min (o.epc.getD 0 * 20) 40 else score
  let score : Rat :=
    if ratTruthy o.commission_value then
      if o.commission_type = some "CPA" then
        score + min (o.commission_value.getD 0 / 2) 30
      else if o.commission_type = some "CPS" then
        score + min (o.commission_value.getD 0 * 2) 30
      else score
    else score
  let score : Rat :=
    if ratTruthy o.popularity_score then
      score + min (o.popularity_score.getD 0 / 3) 30
    else score
  round2 (min score 100)

/-- `KeywordAnalyzer.analyze_offer_potential`
(`app/services/keyword_analyzer.py`), restricted to the score and rating it
computes; the accompanying analysis text and the SEO-keyword generation
(`generate_seo_keywords`, a randomized external-signal lookup) do not feed
back into the score or rating, which depend on the commission arguments
only. -/
def analyze_offer_potential (commission_value : Option Rat)
    (commission_type : Option String) : Int × String :=
  let commission_score : Int :=
    if !ratTruthy commission_value then 50
    else if commission_type = some "Fixed" then
      min 100 (pyInt (commission_value.getD 0 / 50 * 100))
    else if commission_type = some "Percentage" then
      min 100 (pyInt (commission_value.getD 0 * 10))
    else 50
  let overall_score := commission_score
  let rating : String :=
    if 75 ≤ overall_score then "Excellent"
    else if 60 ≤ overall_score then "Good"
    else if 40 ≤ overall_score then "Fair"
    else "Poor"
  (overall_score, rating)

/-- The `competition_scores` dictionary lookup of
`BrandMetricsAnalyzer.calculate_scalability_score`: `dict.get` with default
10, the dictionary also mapping `None` to 10. -/
def competitionComponent : Option String → Int
  | some "Very Low" => 25
  | some "Low" => 20
  | some "Medium" => 12
  | some "High" => 5
  | none => 10
  | some _ => 10

/-- Model of Python `float(s)` for the decimal strings the traffic heuristic
produces: optional sign, integer part, optional fractional part.  Strings
`float` rejects map to `none` (the source wraps the call in `try/except`).
Exponent and special forms never reach this call in the sources. -/
def pyFloat? (s : String) : Option Rat :=
  let t := s.trim
  let sgn : Rat × String :=
    if t.startsWith "-" then (-1, t.drop 1)
    else if t.startsWith "+" then (1, t.drop 1) else (1, t)
  match (sgn.2).splitOn "." with
  | [a] => (a.toNat?).map fun n => sgn.1 * n
  | [a, b] =>
    if a = "" && b = "" then none
    else
      let ia : Option Nat := if a = "" then some 0 else a.toNat?
      let fb : Option (Nat × Nat) :=
        if b = "" then some (0, 1)
        else (b.toNat?).map fun n => (n, (10 : Nat) ^ b.length)
      match ia, fb with
      | some n, some md => some (sgn.1 * ((n : Rat) + (md.1 : Rat) / md.2))
      | _, _ => none
  | _ => none

/-- The `.replace('/mo', '').replace('K', '000').replace('M', '000000')`
cleanup applied to a traffic string before `float()` in
`calculate_scalability_score`. -/
def cleanTraffic (traffic : String) : String :=
  ((traffic.replace "/mo" "").replace "K" "000").replace "M" "000000"

/-- The commission-value component (30 points max) of
`calculate_scalability_score`: truthiness-guarded banding, 10 when the
value is absent (or zero, falsy in Python). -/
def commissionScale (cv : Option Rat) : Int :=
  if ratTruthy cv then
    if 100 ≤ cv.getD 0 then 30
    else if 50 ≤ cv.getD 0 then 25
    else if 20 ≤ cv.getD 0 then 15
    else 5
  else 10

/-- The cookie-duration component (15 points max) of
`calculate_scalability_score`. -/
def cookieScale (cd : Int) : Int :=
  if 90 ≤ cd then 15
  else if 60 ≤ cd then 12
  else if 45 ≤ cd then 8
  else 5

/-- The traffic component (15 points max) of `calculate_scalability_score`,
taking the outcome of `float()` on the cleaned traffic string: the
`try/except` around the parse gives 8 on failure. -/
def trafficScale (parsed : Option Rat) : Int :=
  match parsed with
  | some t =>
    if 100000 ≤ t then 15
    else if 50000 ≤ t then 12
    else if 10000 ≤ t then 8
    else 5
  | none => 8

/-- The domain-authority component (15 points max) of
`calculate_scalability_score`. -/
def domainScale (da : Int) : Int :=
  if 70 ≤ da then 15
  else if 50 ≤ da then 12
  else if 35 ≤ da then 8
  else 5

/-- `BrandMetricsAnalyzer.calculate_scalability_score`
(`app/services/brand_metrics.py`): the five weighted component additions of
the source, written as one sum, then capped at 100. -/
def calculate_scalability_score (commission_value : Option Rat)
    (competition_level : Option String) (cookie_duration : Int)
    (traffic : String) (domain_authority : Int) : Int :=
  min 100
    (0 + commissionScale commission_value +
      competitionComponent competition_level +
      cookieScale cookie_duration +
      trafficScale (pyFloat? (cleanTraffic traffic)) +
      domainScale domain_authority)

/-! ## Cache row serialization (`app/services/sheets_cache.py`) -/

/-- A spreadsheet cell as seen through `gspread`: either a number or a
string (`_offer_to_row` writes numbers for `int`/`float` attributes and
strings for everything else). -/
inductive Cell where
  | num (q : Rat)
  | text (t : String)
deriving DecidableEq, Repr

/-- Backslash-escaping of `"` and `\` inside a JSON string literal, as
`json.dumps` produces for the strings that occur here. -/
def jsonEsc : List Char → List Char
  | [] => []
  | c :: cs =>
    if c = '"' || c = '\\' then '\\' :: c :: jsonEsc cs else c :: jsonEsc cs

/-- A JSON string literal: quote, escaped characters, quote. -/
def jsonQuoteChars (s : String) : List Char :=
  '"' :: (jsonEsc s.data ++ ['"'])

/-- Body of a JSON array of strings with the `", "` item separator
`json.dumps` uses. -/
def jsonBody : List String → List Char
  | [] => []
  | [s] => jsonQuoteChars s
  | s :: ss => jsonQuoteChars s ++ ',' :: ' ' :: jsonBody ss

/-- Model of `json.dumps` on a list of strings: `["a", "b"]`. -/
def jsonDumps (l : List String) : String :=
  ('[' :: (jsonBody l ++ [']'])).asString

/-- Parse one JSON string literal body up to its closing quote, undoing
`jsonEsc`; returns the string and the unconsumed characters. -/
def jsonStrAux (acc : List Char) : List Char → Option (String × List Char)
  | [] => none
  | c :: cs =>
    if c = '\\' then
      match cs with
      | [] => none
      | d :: ds => jsonStrAux (d :: acc) ds
    else if c = '"' then some (acc.reverse.asString, cs)
    else jsonStrAux (c :: acc) cs

/-- Parse the comma-separated elements of a JSON string array up to the
closing bracket (fueled recursion; fuel bounds the element count). -/
def jsonElemsAux : Nat → List Char → Option (List String × List Char)
  | 0, _ => none
  | fuel + 1, '"' :: rest =>
    match jsonStrAux [] rest with
    | none => none
    | some (s, rest₁) =>
      match rest₁ with
      | ']' :: rest₂ => some ([s], rest₂)
      | ',' :: ' ' :: rest₂ =>
        match jsonElemsAux fuel rest₂ with
        | some (l, r) => some (s :: l, r)
        | none => none
      | ',' :: rest₂ =>
        match jsonElemsAux fuel rest₂ with
        | some (l, r) => some (s :: l, r)
        | none => none
      | _ => none
  | _ + 1, _ => none

/-- Model of `json.loads` restricted to JSON arrays of strings — the only
shape `_offer_to_row` ever writes into the `related_keywords` column.  Any
input `json.loads` would reject, and any JSON that is not an array of
strings, maps to `none` (the source catches the decode error and stores
`None`; other JSON shapes never arise from `write_offers` output). -/
def jsonLoads? (s : String) : Option (List String) :=
  match s.data with
  | [] => none
  | c :: rest =>
    if c = '[' then
      if rest = [']'] then some []
      else
        match jsonElemsAux (rest.length + 1) rest with
        | some (l, []) => some l
        | _ => none
    else none

/-- `_offer_to_row` on an optional string attribute: `None` becomes an empty
cell, otherwise `str(value)` (already a string). -/
def optStrCell : Option String → Cell
  | none => .text ""
  | some s => .text s

/-- `_offer_to_row` on a required string attribute. -/
def strCell (s : String) : Cell := .text s

/-- `_offer_to_row` on an optional float attribute: `None` becomes an empty
cell, otherwise the number itself. -/
def optRatCell : Option Rat → Cell
  | none => .text ""
  | some q => .num q

/-- `_offer_to_row` on an optional int attribute. -/
def optIntCell : Option Int → Cell
  | none => .text ""
  | some i => .num (i : Rat)

/-- `_offer_to_row` on `related_keywords`: `json.dumps(value) if value else ""`
(so `None` and the empty list both serialize to an empty cell). -/
def rkCell : Option (List String) → Cell
  | none => .text ""
  | some l => if l = [] then .text "" else .text (jsonDumps l)

/-- `_row_to_offer`'s `to_float`: empty cell means unset, a number is taken
as is, a non-empty string goes through `float()`. -/
def cellToFloat : Cell → Option Rat
  | .num q => some q
  | .text t => if t = "" then none else pyFloat? t

/-- `_row_to_offer`'s `to_int`: `int(float(val))` under the same guards. -/
def cellToInt (c : Cell) : Option Int :=
  (cellToFloat c).map pyInt

/-- `_row_to_offer`'s `to_str`: empty cell means unset, otherwise
`str(val)`.  A numeric cell in a string column never arises from
`write_offers` output; its `str()` is modelled by `toString`. -/
def cellToStr : Cell → Option String
  | .num q => some (toString q)
  | .text t => if t = "" then none else some t

/-- `_row_to_offer` on a required string column: `str(row.get(col, ""))`. -/
def cellStr : Cell → String
  | .num q => toString q
  | .text t => t

/-- `_row_to_offer` on the currency column:
`str(row.get("commission_currency", "USD") or "USD")` — a falsy cell (empty
string, zero) falls back to `"USD"`. -/
def cellCurrency : Cell → String
  | .num q => if q = 0 then "USD" else toString q
  | .text t => if t = "" then "USD" else t

/-- `_row_to_offer` on `related_keywords`: a truthy non-empty string cell is
parsed with `json.loads`, any failure caught as `None`; falsy cells (empty
string, zero) and non-string cells give `None`. -/
def cellRk : Cell → Option (List String)
  | .num _ => none
  | .text t => if t = "" then none else jsonLoads? t

/-- One data row of a per-keyword worksheet, one cell per column of
`SheetsCacheService.OFFER_COLUMNS` (the header row is implicit). -/
structure Row where
  id : Cell
  name : Cell
  description : Cell
  network : Cell
  advertiser_name : Cell
  advertiser_id : Cell
  commission_type : Cell
  commission_value : Cell
  commission_currency : Cell
  epc : Cell
  conversion_rate : Cell
  avg_sale_value : Cell
  popularity_score : Cell
  category : Cell
  subcategory : Cell
  tracking_url : Cell
  landing_page_url : Cell
  youtube_score : Cell
  search_interest : Cell
  search_trend : Cell
  potential_score : Cell
  potential_rating : Cell
  potential_analysis : Cell
  related_keywords : Cell
  scalability_score : Cell
  cookie_duration : Cell
  traffic_monthly : Cell
  growth_percentage : Cell
  competition_level : Cell
  domain_authority : Cell
  instagram_followers : Cell
deriving DecidableEq, Repr

/-- `SheetsCacheService._offer_to_row`: serialize an `Offer` into the fixed
column order, `None` as empty cell, numbers as numbers,
`related_keywords` as a JSON blob, everything else as `str(value)`. -/
def offer_to_row (o : Offer) : Row where
  id := strCell o.id
  name := strCell o.name
  description := optStrCell o.description
  network := strCell o.network
  advertiser_name := strCell o.advertiser_name
  advertiser_id := strCell o.advertiser_id
  commission_type := optStrCell o.commission_type
  commission_value := optRatCell o.commission_value
  commission_currency := strCell o.commission_currency
  epc := optRatCell o.epc
  conversion_rate := optRatCell o.conversion_rate
  avg_sale_value := optRatCell o.avg_sale_value
  popularity_score := optRatCell o.popularity_score
  category := optStrCell o.category
  subcategory := optStrCell o.subcategory
  tracking_url := optStrCell o.tracking_url
  landing_page_url := optStrCell o.landing_page_url
  youtube_score := optRatCell o.youtube_score
  search_interest := optIntCell o.search_interest
  search_trend := optStrCell o.search_trend
  potential_score := optIntCell o.potential_score
  potential_rating := optStrCell o.potential_rating
  potential_analysis := optStrCell o.potential_analysis
  related_keywords := rkCell o.related_keywords
  scalability_score := optIntCell o.scalability_score
  cookie_duration := optIntCell o.cookie_duration
  traffic_monthly := optStrCell o.traffic_monthly
  growth_percentage := optStrCell o.growth_percentage
  competition_level := optStrCell o.competition_level
  domain_authority := optIntCell o.domain_authority
  instagram_followers := optStrCell o.instagram_followers

/-- `SheetsCacheService._row_to_offer`: parse a row back into an `Offer`.
The source returns `None` when construction raises (only possible for cell
contents that `write_offers` never produces, e.g. JSON of the wrong shape
after a manual sheet edit); in the model every cell combination yields a
value, so the `Option` is always `some`. -/
def row_to_offer (r : Row) : Option Offer :=
  some
    { id := cellStr r.id
      name := cellStr r.name
      description := cellToStr r.description
      network := cellStr r.network
      advertiser_name := cellStr r.advertiser_name
      advertiser_id := cellStr r.advertiser_id
      commission_type := cellToStr r.commission_type
      commission_value := cellToFloat r.commission_value
      commission_currency := cellCurrency r.commission_currency
      epc := cellToFloat r.epc
      conversion_rate := cellToFloat r.conversion_rate
      avg_sale_value := cellToFloat r.avg_sale_value
      popularity_score := cellToFloat r.popularity_score
      category := cellToStr r.category
      subcategory := cellToStr r.subcategory
      tracking_url := cellToStr r.tracking_url
      landing_page_url := cellToStr r.landing_page_url
      youtube_score := cellToFloat r.youtube_score
      search_interest := cellToInt r.search_interest
      search_trend := cellToStr r.search_trend
      potential_score := cellToInt r.potential_score
      potential_rating := cellToStr r.potential_rating
      potential_analysis := cellToStr r.potential_analysis
      related_keywords := cellRk r.related_keywords
      scalability_score := cellToInt r.scalability_score
      cookie_duration := cellToInt r.cookie_duration
      traffic_monthly := cellToStr r.traffic_monthly
      growth_percentage := cellToStr r.growth_percentage
      competition_level := cellToStr r.competition_level
      domain_authority := cellToInt r.domain_authority
      instagram_followers := cellToStr r.instagram_followers }

/-! ## Cache store state (`app/services/sheets_cache.py`) -/

/-- A calendar date; the sheet stores it formatted `%Y-%m-%d` and parses it
back with `strptime`, which are mutually inverse on calendar dates, so the
model stores the date value itself (an empty metadata cell is the `none` of
the `Option Date` in the store). -/
structure Date where
  year : Nat
  month : Nat
  day : Nat
deriving DecidableEq, Repr

/-- The four single-character `str.replace` calls of
`_sanitize_tab_name` (`/` and `\` to `-`, `[` to `(`, `]` to `)`), which for
one-character patterns act independently on each character. -/
def sanitizeChar (c : Char) : Char :=
  if c = '/' then '-'
  else if c = '\\' then '-'
  else if c = '[' then '('
  else if c = ']' then ')'
  else c

/-- `SheetsCacheService._sanitize_tab_name`: falsy keyword becomes
`"default"`; strip, lower-case, map path separators to `-` and brackets to
parentheses, truncate to 100 characters (Python slices by code point).
`strip()` and `lower()` are modelled character-wise. -/
def sanitize_tab_name (keyword : String) : String :=
  let k := if keyword = "" then "default" else keyword
  let stripped :=
    ((k.data.dropWhile Char.isWhitespace).reverse.dropWhile
      Char.isWhitespace).reverse
  let lowered := stripped.map Char.toLower
  ((lowered.map sanitizeChar).take 100).asString

/-- The whole spreadsheet: per-keyword worksheets of offer rows, plus the
`_metadata` worksheet mapping sanitized keyword to last-updated date (an
empty date cell is `none`). -/
structure CacheStore where
  tables : List (String × List Row)
  meta : List (String × Option Date)
deriving DecidableEq, Repr

/-- `meta_ws.find(tab_name, in_column=1)` followed by reading column 2: the
date cell of the first metadata row whose key matches. -/
def metaFind (meta : List (String × Option Date)) (k : String) :
    Option (Option Date) :=
  (meta.find? fun r => r.1 == k).map Prod.snd

/-- `_set_last_updated`'s upsert: update the date of the first row whose
key matches, else append a new `[tab_name, date]` row. -/
def metaSet : List (String × Option Date) → String → Date →
    List (String × Option Date)
  | [], k, d => [(k, some d)]
  | r :: rs, k, d => if r.1 = k then (k, some d) :: rs else r :: metaSet rs k d

/-- `spreadsheet.worksheet(tab_name)`: the data rows of the named
worksheet, `none` when it does not exist (`WorksheetNotFound`). -/
def tabFind (tables : List (String × List Row)) (k : String) :
    Option (List Row) :=
  (tables.find? fun r => r.1 == k).map Prod.snd

/-- Whole-table replace of one worksheet (`get_or_create` + `clear` +
header + row update), creating the worksheet when missing. -/
def tabSet : List (String × List Row) → String → List Row →
    List (String × List Row)
  | [], k, rows => [(k, rows)]
  | t :: ts, k, rows => if t.1 = k then (k, rows) :: ts else t :: tabSet ts k rows

/-- `SheetsCacheService.get_last_updated`: look the sanitized keyword up in
the metadata sheet; missing row or empty date cell give `None`. -/
def get_last_updated (st : CacheStore) (keyword : String) : Option Date :=
  match metaFind st.meta (sanitize_tab_name keyword) with
  | none => none
  | some d => d

/-- `SheetsCacheService._set_last_updated`. -/
def set_last_updated (st : CacheStore) (keyword : String) (d : Date) :
    CacheStore :=
  { st with meta := metaSet st.meta (sanitize_tab_name keyword) d }

/-- `SheetsCacheService.is_cache_fresh`: fresh iff a last-updated date
exists and equals today (`date.today()` passed explicitly as `today`). -/
def is_cache_fresh (st : CacheStore) (keyword : String) (today : Date) : Bool :=
  match get_last_updated st keyword with
  | none => false
  | some d => d == today

/-- `SheetsCacheService.read_offers`: missing worksheet or no records give
`[]`; otherwise each record is parsed with `_row_to_offer`, unparseable
rows being skipped (`filterMap`). -/
def read_offers (st : CacheStore) (keyword : String) : List Offer :=
  match tabFind st.tables (sanitize_tab_name keyword) with
  | none => []
  | some rows => rows.filterMap row_to_offer

/-- `SheetsCacheService.write_offers`: clear the keyword's worksheet and
rewrite header plus one row per offer (no rows when `offers` is empty),
then stamp the keyword's freshness to today — the source stamps on both the
empty and the non-empty branch. -/
def write_offers (st : CacheStore) (keyword : String) (offers : List Offer)
    (today : Date) : CacheStore :=
  let tab := sanitize_tab_name keyword
  let st₁ : CacheStore :=
    { st with tables := tabSet st.tables tab (offers.map offer_to_row) }
  set_last_updated st₁ keyword today

/-! ## Aggregator (`app/services/aggregator.py`) -/

/-- Environment `OfferAggregator.__init__` runs in: whether the sheets
credentials are configured (`Config.is_sheets_configured()`), whether
constructing `SheetsCacheService` succeeds or raises, and whether the
Impact credentials are configured. -/
structure InitEnv where
  sheetsConfigured : Bool
  sheetsConnect : Except String Unit
  impactConfigured : Bool

/-- The aggregator state `__init__` builds: `sheets_cache` is set only when
configuration and connection both succeed (a connection failure is caught
and logged, never re-raised); the authenticated network list holds Impact
iff configured; two discovery networks are always registered. -/
structure Aggregator where
  hasSheetsCache : Bool
  impactNetwork : Bool
  discoveryNetworkCount : Nat

/-- `OfferAggregator.__init__`: a total function — construction succeeds in
every environment, degrading to `hasSheetsCache = false` when the cache
store is not configured or fails to connect. -/
def aggregator_init (env : InitEnv) : Aggregator where
  hasSheetsCache :=
    env.sheetsConfigured &&
      (match env.sheetsConnect with | .ok _ => true | .error _ => false)
  impactNetwork := env.impactConfigured
  discoveryNetworkCount := 2

/-- The cache handle a search method sees: the external store when
`self.sheets_cache` is set, `none` otherwise. -/
def aggCache (a : Aggregator) (st : CacheStore) : Option CacheStore :=
  if a.hasSheetsCache then some st else none

/-- The provider fan-out loop shared by both search methods: each
provider's `search_offers` either returns a list (extended onto the
accumulator) or raises (caught, logged, skipped). -/
def fanOut (results : List (Except String (List Offer))) : List Offer :=
  results.foldl
    (fun acc r => match r with | .ok offers => acc ++ offers | .error _ => acc)
    []

/-- `x.youtube_score or 0`: the sort key of `search_all_networks`. -/
def pyOr0 : Option Rat → Rat
  | none => 0
  | some q => if q = 0 then 0 else q

/-- The comparison `list.sort(key=..., reverse=True)` realizes: descending
by `youtube_score or 0`, stable on ties. -/
def scoreDesc (a b : Offer) : Bool :=
  decide (pyOr0 b.youtube_score ≤ pyOr0 a.youtube_score)

/-- `OfferAggregator.search_all_networks`: fan out to the authenticated
providers (given here as each provider's outcome), concatenate, apply the
`min_commission` filter when that argument is truthy
(`offer.commission_value and offer.commission_value >= min_commission`),
and sort descending by `youtube_score or 0`.  The keyword / category /
`min_epc` arguments are forwarded to the providers and are inside the given
outcomes. -/
def search_all_networks (results : List (Except String (List Offer)))
    (min_commission : Option Rat) : List Offer :=
  let all_offers := fanOut results
  let all_offers :=
    if ratTruthy min_commission then
      all_offers.filter fun o =>
        ratTruthy o.commission_value &&
          decide (min_commission.getD 0 ≤ o.commission_value.getD 0)
    else all_offers
  all_offers.mergeSort scoreDesc

/-- `keyword if keyword else "software"` at the top of
`search_discovery_networks`. -/
def effectiveKeyword : Option String → String
  | some k => if k = "" then "software" else k
  | none => "software"

/-- `OfferAggregator.analyze_offers_potential`: enrich the first
`analyze_top_n` offers in place (each enrichment wrapped in `try/except`,
so it is some per-offer transformation leaving identity and order alone),
returning the same list.  The enrichment itself calls the randomized
external signal providers, so it enters the model as a parameter. -/
def analyze_offers_potential (enrich : Offer → Offer) (offers : List Offer)
    (analyze_top_n : Nat) : List Offer :=
  (offers.take analyze_top_n).map enrich ++ offers.drop analyze_top_n

/-- Input of one `search_discovery_networks` call: the cache handle, the
arguments, each provider's outcome (authenticated networks first, then the
two discovery networks), the external enrichment, and today's date. -/
structure DiscoveryInput where
  cache : Option CacheStore
  keyword : Option String
  force_refresh : Bool
  analyze_flag : Bool
  networkResults : List (Except String (List Offer))
  discoveryResults : List (Except String (List Offer))
  enrich : Offer → Offer
  today : Date

/-- Observable outcome of one `search_discovery_networks` call: the
returned offers, the cache store afterwards, whether the cached rows were
served, and whether the provider fan-out path executed. -/
structure DiscoveryOutput where
  offers : List Offer
  cache : Option CacheStore
  servedFromCache : Bool
  ranFanOut : Bool

/-- `OfferAggregator.search_discovery_networks`: serve the cached rows only
when a cache is present, `force_refresh` is off, the key is fresh and the
cached table is non-empty; otherwise fan out to every provider, enrich when
requested and non-empty, and write back to the cache — but only when the
merged result list is non-empty (`if self.sheets_cache and all_offers:`).
Cache read/write errors are caught in the source and leave the miss path /
the store untouched; the model's store operations are total. -/
def search_discovery_networks (inp : DiscoveryInput) : DiscoveryOutput :=
  let effective_keyword := effectiveKeyword inp.keyword
  let hit : Option (List Offer) :=
    match inp.cache with
    | some st =>
      if !inp.force_refresh && is_cache_fresh st effective_keyword inp.today then
        let cached := read_offers st effective_keyword
        if cached.isEmpty then none else some cached
      else none
    | none => none
  match hit with
  | some cached =>
    { offers := cached, cache := inp.cache
      servedFromCache := true, ranFanOut := false }
  | none =>
    let all_offers := fanOut inp.networkResults ++ fanOut inp.discoveryResults
    let all_offers :=
      if inp.analyze_flag && !all_offers.isEmpty then
        analyze_offers_potential inp.enrich all_offers all_offers.length
      else all_offers
    let cache₂ : Option CacheStore :=
      match inp.cache with
      | some st =>
        if all_offers.isEmpty then some st
        else some (write_offers st effective_keyword all_offers inp.today)
      | none => none
    { offers := all_offers, cache := cache₂
      servedFromCache := false, ranFanOut := true }

/-! ## Specification-side definitions (closed forms the claims assert) -/

/-- EPC component of the suitability score as the spec states it:
`min(epc*20, 40)`, an absent (or zero, which Python treats as falsy) EPC
contributing 0 — which the formula already gives at `getD 0`. -/
def epcComponent (epc : Option Rat) : Rat :=
  min (epc.getD 0 * 20) 40

/-- Commission component of the suitability score as the code keys it: the
commission-type strings the scorer actually compares against are `"CPA"`
(fixed dollar amounts, `min(value/2, 30)`) and `"CPS"` (percentages,
`min(value*2, 30)`); every other type contributes 0. -/
def commissionComponent (ct : Option String) (cv : Option Rat) : Rat :=
  if ct = some "CPA" then min (cv.getD 0 / 2) 30
  else if ct = some "CPS" then min (cv.getD 0 * 2) 30
  else 0

/-- Popularity component of the suitability score: `min(popularity/3, 30)`,
absent contributing 0. -/
def popularityComponent (p : Option Rat) : Rat :=
  min (p.getD 0 / 3) 30

/-- The suitability-score formula exactly as the specification words it:
commission scaled by the *spec's* kind names `"Fixed"` and `"Percentage"`
(compare `commissionComponent`, which uses the strings the code actually
tests). -/
def claimSuitability (o : Offer) : Rat :=
  min
    (min (o.epc.getD 0 * 20) 40 +
      (if o.commission_type = some "Fixed" then
        min (o.commission_value.getD 0 / 2) 30
      else if o.commission_type = some "Percentage" then
        min (o.commission_value.getD 0 * 2) 30
      else 0) +
      min (o.popularity_score.getD 0 / 3) 30)
    100

/-- The opportunity-score rating bands as the spec states them:
Excellent at 75, Good at 60, Fair at 40, else Poor. -/
def ratingOf (s : Int) : String :=
  if 75 ≤ s then "Excellent"
  else if 60 ≤ s then "Good"
  else if 40 ≤ s then "Fair"
  else "Poor"

/-- Field-wise condition under which a cache row round-trips exactly: no
string-typed field set to the empty string (the row schema writes absent
values as the empty cell, so an empty string collides with "absent"), and
`related_keywords` not set to the empty list (serialized as an empty cell
by `json.dumps(value) if value else ""`). -/
def roundtrippable (o : Offer) : Bool :=
  o.commission_currency != "" &&
  o.description != some "" && o.commission_type != some "" &&
  o.category != some "" && o.subcategory != some "" &&
  o.tracking_url != some "" && o.landing_page_url != some "" &&
  o.search_trend != some "" && o.potential_rating != some "" &&
  o.potential_analysis != some "" && o.traffic_monthly != some "" &&
  o.growth_percentage != some "" && o.competition_level != some "" &&
  o.instagram_followers != some "" &&
  o.related_keywords != some ([] : List String)

/-! ## Concrete fixtures used by witnesses and counterexamples -/

/-- Empty cache store: no worksheets, no metadata rows. -/
def st0 : CacheStore := { tables := [], meta := [] }

/-- A calendar date standing for "today". -/
def d0 : Date := { year := 2026, month := 10, day := 12 }

/-- A different calendar date ("yesterday"). -/
def d1 : Date := { year := 2026, month := 10, day := 11 }

/-- An offer whose commission type is the literal `"Fixed"` that discovery
providers produce. -/
def oFix : Offer :=
  { id := "1", name := "Alpha", network := "ov", advertiser_name := "a",
    advertiser_id := "1", commission_type := some "Fixed",
    commission_value := some 20 }

/-- An offer with a negative EPC (the model places no sign constraint on
provider-supplied metrics). -/
def oNeg : Offer :=
  { id := "2", name := "Beta", network := "ov", advertiser_name := "b",
    advertiser_id := "2", epc := some (-1) }

/-- An offer whose `related_keywords` is set to the empty list. -/
def oEmptyRk : Offer :=
  { id := "3", name := "Gamma", network := "ov", advertiser_name := "c",
    advertiser_id := "3", related_keywords := some ([] : List String) }

/-- A fully round-trippable offer with a non-empty keyword list. -/
def oRk : Offer :=
  { id := "4", name := "Delta", network := "ov", advertiser_name := "d",
    advertiser_id := "4", description := some "great product",
    related_keywords := some ["delta", "delta review"] }

/-- An offer with no commission value at all. -/
def oNoCv : Offer :=
  { id := "5", name := "Epsilon", network := "ov", advertiser_name := "e",
    advertiser_id := "5" }

/-- An offer carrying a commission value of 10 and a suitability score. -/
def oCv10 : Offer :=
  { id := "6", name := "Zeta", network := "ov", advertiser_name := "f",
    advertiser_id := "6", commission_value := some 10,
    youtube_score := some 55 }

/-- A second offer with a commission value, lower suitability score. -/
def oCv7 : Offer :=
  { id := "7", name := "Eta", network := "ov", advertiser_name := "g",
    advertiser_id := "7", commission_value := some 7,
    youtube_score := some 40 }

/-- An offer standing for a cached row already in the store. -/
def oCached : Offer :=
  { id := "8", name := "Cached", network := "ov", advertiser_name := "h",
    advertiser_id := "8" }

/-- An offer standing for a freshly fetched provider result. -/
def oNew : Offer :=
  { id := "9", name := "Fresh", network := "ov", advertiser_name := "i",
    advertiser_id := "9" }

/-- A store whose `"vpn"` table holds one cached row, stamped fresh at
`d0`. -/
def stFresh : CacheStore :=
  { tables := [("vpn", [offer_to_row oCached])], meta := [("vpn", some d0)] }

/-- A store whose `"vpn"` freshness record is the stale date `d1`. -/
def stStale : CacheStore :=
  { tables := [("vpn", [])], meta := [("vpn", some d1)] }

/-- Discovery-search input for the empty-fan-out run against the empty
store: configured cache, no force refresh, one authenticated provider
returning nothing, one discovery provider returning nothing and one
raising. -/
def inpEmptyRun : DiscoveryInput :=
  { cache := some st0, keyword := some "vpn", force_refresh := false
    analyze_flag := true
    networkResults := [Except.ok []]
    discoveryResults := [Except.ok [], Except.error "scrape failed"]
    enrich := id, today := d0 }

/-- Force-refresh input against the fresh store with a non-empty cached
table: one provider returning a fresh offer. -/
def inpForceFresh : DiscoveryInput :=
  { cache := some stFresh, keyword := some "vpn", force_refresh := true
    analyze_flag := false
    networkResults := [Except.ok [oNew]]
    discoveryResults := [Except.ok []]
    enrich := id, today := d0 }

/-- Force-refresh input against the stale store with all providers
returning nothing. -/
def inpForceEmpty : DiscoveryInput :=
  { cache := some stStale, keyword := some "vpn", force_refresh := true
    analyze_flag := true
    networkResults := [Except.ok []]
    discoveryResults := [Except.ok [], Except.ok []]
    enrich := id, today := d0 }

/-! ## Rounding lemmas -/

theorem roundHalfEven_ge_floor (x : Rat) : ⌊x⌋ ≤ roundHalfEven x := by
  unfold roundHalfEven
  split_ifs <;> omega

theorem roundHalfEven_le_floor_add_one (x : Rat) :
    roundHalfEven x ≤ ⌊x⌋ + 1 := by
  unfold roundHalfEven
  split_ifs <;> omega

theorem roundHalfEven_mono {x y : Rat} (h : x ≤ y) :
    roundHalfEven x ≤ roundHalfEven y := by
  rcases lt_or_le ⌊x⌋ ⌊y⌋ with hf | hf
  · have h1 := roundHalfEven_le_floor_add_one x
    have h2 := roundHalfEven_ge_floor y
    omega
  · have hfe : ⌊x⌋ = ⌊y⌋ := le_antisymm (Int.floor_le_floor h) hf
    have hfr : Int.fract x ≤ Int.fract y := by
      unfold Int.fract
      rw [hfe]
      linarith
    unfold roundHalfEven
    rw [hfe]
    split_ifs <;> first | omega | linarith

theorem roundHalfEven_nonneg {x : Rat} (h : 0 ≤ x) : 0 ≤ roundHalfEven x := by
  have h1 := roundHalfEven_ge_floor x
  have h0 : (0 : Int) ≤ ⌊x⌋ := Int.floor_nonneg.mpr h
  omega

theorem roundHalfEven_le_intCast {x : Rat} {n : Int} (h : x ≤ (n : Rat)) :
    roundHalfEven x ≤ n := by
  have hfl : ⌊x⌋ ≤ n := by
    have := Int.floor_le_floor h
    simpa using this
  have hfr : Int.fract x = x - ⌊x⌋ := rfl
  unfold roundHalfEven
  split_ifs with h1 h2 h3
  · exact hfl
  · have hq : (⌊x⌋ : Rat) < (n : Rat) := by
      rw [hfr] at h2
      linarith
    have : ⌊x⌋ < n := by exact_mod_cast hq
    omega
  · exact hfl
  · have hq : (⌊x⌋ : Rat) < (n : Rat) := by
      rw [hfr] at h1
      push_neg at h1
      linarith
    have : ⌊x⌋ < n := by exact_mod_cast hq
    omega

theorem round2_mono {x y : Rat} (h : x ≤ y) : round2 x ≤ round2 y := by
  unfold round2
  have h1 : roundHalfEven (100 * x) ≤ roundHalfEven (100 * y) :=
    roundHalfEven_mono (by linarith)
  have h2 : ((roundHalfEven (100 * x) : Int) : Rat) ≤
      ((roundHalfEven (100 * y) : Int) : Rat) := by exact_mod_cast h1
  linarith

theorem round2_nonneg {x : Rat} (h : 0 ≤ x) : 0 ≤ round2 x := by
  unfold round2
  have h1 : (0 : Int) ≤ roundHalfEven (100 * x) :=
    roundHalfEven_nonneg (by linarith)
  have h2 : (0 : Rat) ≤ ((roundHalfEven (100 * x) : Int) : Rat) := by
    exact_mod_cast h1
  linarith

theorem round2_le_100 {x : Rat} (h : x ≤ 100) : round2 x ≤ 100 := by
  unfold round2
  have h1 : roundHalfEven (100 * x) ≤ (10000 : Int) :=
    roundHalfEven_le_intCast (by push_cast; linarith)
  have h2 : ((roundHalfEven (100 * x) : Int) : Rat) ≤ 10000 := by
    exact_mod_cast h1
  linarith

/-! ## C10 -/

theorem commissionScale_bounds (cv : Option Rat) :
    5 ≤ commissionScale cv ∧ commissionScale cv ≤ 30 := by
  unfold commissionScale
  split_ifs <;> norm_num

theorem competitionComponent_bounds (cl : Option String) :
    5 ≤ competitionComponent cl ∧ competitionComponent cl ≤ 25 := by
  unfold competitionComponent
  split <;> norm_num

theorem cookieScale_bounds (cd : Int) : 5 ≤ cookieScale cd ∧ cookieScale cd ≤ 15 := by
  unfold cookieScale
  split_ifs <;> norm_num

theorem trafficScale_bounds (m : Option Rat) :
    5 ≤ trafficScale m ∧ trafficScale m ≤ 15 := by
  rcases m with _ | t
  · norm_num [trafficScale]
  · simp only [trafficScale]
    split_ifs <;> norm_num

theorem domainScale_bounds (da : Int) : 5 ≤ domainScale da ∧ domainScale da ≤ 15 := by
  unfold domainScale
  split_ifs <;> norm_num

/-- C10: for every commission value (including absent), every competition
label (including unrecognized ones), every cookie duration, every traffic
string (including unparseable ones) and every domain authority,
`calculate_scalability_score` returns an integer between 25 and 100
inclusive — each of the five weighted components contributes at least 5
points. -/
theorem c10_scalability_score_bounds (commission_value : Option Rat)
    (competition_level : Option String) (cookie_duration : Int)
    (traffic : String) (domain_authority : Int) :
    25 ≤ calculate_scalability_score commission_value competition_level
        cookie_duration traffic domain_authority ∧
      calculate_scalability_score commission_value competition_level
        cookie_duration traffic domain_authority ≤ 100 := by
  unfold calculate_scalability_score
  have h1 := commissionScale_bounds commission_value
  have h2 := competitionComponent_bounds competition_level
  have h3 := cookieScale_bounds cookie_duration
  have h4 := trafficScale_bounds (pyFloat? (cleanTraffic traffic))
  have h5 := domainScale_bounds domain_authority
  omega

/-! ## C4 -/

/-- C4 (amended): the opportunity base score and rating depend on the
commission data only — an absent *or zero* (Python-falsy) commission value
gives 50; a nonzero value of kind `"Fixed"` gives
`min(100, int(value/50*100))`; a nonzero value of kind `"Percentage"`
gives `min(100, int(value*10))`; any other kind gives 50; and the rating is
the banding Excellent≥75 / Good≥60 / Fair≥40 / else Poor applied to the
score — in particular an absent commission value gives score 50 and rating
`"Fair"`. -/
theorem c4_opportunity_score :
    (∀ ct, analyze_offer_potential none ct = (50, "Fair")) ∧
    (∀ ct, analyze_offer_potential (some 0) ct = (50, "Fair")) ∧
    (∀ v : Rat, v ≠ 0 →
      (analyze_offer_potential (some v) (some "Fixed")).1 =
        min 100 (pyInt (v / 50 * 100))) ∧
    (∀ v : Rat, v ≠ 0 →
      (analyze_offer_potential (some v) (some "Percentage")).1 =
        min 100 (pyInt (v * 10))) ∧
    (∀ (v : Rat) (ct : Option String), ct ≠ some "Fixed" →
      ct ≠ some "Percentage" → (analyze_offer_potential (some v) ct).1 = 50) ∧
    (∀ cv ct, (analyze_offer_potential cv ct).2 =
      ratingOf (analyze_offer_potential cv ct).1) := by
  refine ⟨?_, ?_, ?_, ?_, ?_, ?_⟩
  · intro ct
    norm_num [analyze_offer_potential, ratTruthy]
  · intro ct
    norm_num [analyze_offer_potential, ratTruthy]
  · intro v hv
    simp [analyze_offer_potential, ratTruthy, hv]
  · intro v hv
    simp [analyze_offer_potential, ratTruthy, hv]
  · intro v ct h1 h2
    by_cases hv : v = 0
    · norm_num [analyze_offer_potential, ratTruthy, hv]
    · simp [analyze_offer_potential, ratTruthy, hv, h1, h2]
  · intro cv ct
    rfl

/-- C4 counterexample: a present-but-zero commission value of kind
`"Fixed"`: the code returns score 50 and rating `"Fair"`, while the claim's
formula `min(100, int(value/50*100))` yields 0, whose band is `"Poor"`. -/
theorem c4_counterexample :
    analyze_offer_potential (some 0) (some "Fixed") = (50, "Fair") ∧
      min 100 (pyInt (0 / 50 * 100)) = 0 ∧
      (50 : Int) ≠ min 100 (pyInt (0 / 50 * 100)) ∧
      ratingOf (min 100 (pyInt (0 / 50 * 100))) = "Poor" := by
  norm_num [analyze_offer_potential, ratTruthy, pyInt, ratingOf]

/-- C4 witness: the amended claim applied at concrete inputs — an absent
value, a zero value, Fixed 30, Percentage 4, unknown kind `"Varies"`. -/
theorem c4_opportunity_score_witness :
    analyze_offer_potential none none = (50, "Fair") ∧
      analyze_offer_potential (some 0) (some "Fixed") = (50, "Fair") ∧
      (analyze_offer_potential (some 30) (some "Fixed")).1 =
        min 100 (pyInt (30 / 50 * 100)) ∧
      (analyze_offer_potential (some 4) (some "Percentage")).1 =
        min 100 (pyInt (4 * 10)) ∧
      (analyze_offer_potential (some 9) (some "Varies")).1 = 50 ∧
      (analyze_offer_potential (some 9) (some "Varies")).2 =
        ratingOf (analyze_offer_potential (some 9) (some "Varies")).1 :=
  ⟨c4_opportunity_score.1 none,
    c4_opportunity_score.2.1 (some "Fixed"),
    c4_opportunity_score.2.2.1 30 (by norm_num),
    c4_opportunity_score.2.2.2.1 4 (by norm_num),
    c4_opportunity_score.2.2.2.2.1 9 (some "Varies") (by simp) (by simp),
    c4_opportunity_score.2.2.2.2.2 (some 9) (some "Varies")⟩

/-! ## C6 -/

theorem metaFind_metaSet (meta : List (String × Option Date)) (k : String)
    (d : Date) : metaFind (metaSet meta k d) k = some (some d) := by
  induction meta with
  | nil => simp [metaSet, metaFind]
  | cons r rs ih =>
    by_cases hr : r.1 = k
    · simp [metaSet, hr, metaFind]
    · have hbeq : (r.1 == k) = false := by simp [hr]
      simpa [metaSet, if_neg hr, metaFind, List.find?_cons, hbeq] using ih

/-- C6: the freshness state machine over any search key `k` — `isFresh(k)`
is false when no freshness record (or an empty date cell) exists for `k`;
it is true immediately after `write_offers(k, offers)` completes on the
same calendar day, for any offer list including the empty one; and it is
false whenever the stored date for `k` differs from the current calendar
date. -/
theorem c6_freshness_state_machine (st : CacheStore) (k : String) (today : Date) :
    (get_last_updated st k = none → is_cache_fresh st k today = false) ∧
    (∀ offers, is_cache_fresh (write_offers st k offers today) k today = true) ∧
    (∀ d, get_last_updated st k = some d → d ≠ today →
      is_cache_fresh st k today = false) := by
  refine ⟨?_, ?_, ?_⟩
  · intro h
    simp [is_cache_fresh, h]
  · intro offers
    have hm : get_last_updated (write_offers st k offers today) k =
        some today := by
      simp [get_last_updated, write_offers, set_last_updated,
        metaFind_metaSet]
    simp [is_cache_fresh, hm]
  · intro d hd hne
    simp [is_cache_fresh, hd, hne]

/-- C6 witness: applied at the empty store (unknown key), after a write of
the empty offer list at `d0`, and at a store whose stored date is the stale
`d1 ≠ d0`. -/
theorem c6_freshness_state_machine_witness :
    is_cache_fresh st0 "vpn" d0 = false ∧
      is_cache_fresh (write_offers st0 "vpn" [] d0) "vpn" d0 = true ∧
      is_cache_fresh stStale "vpn" d0 = false :=
  ⟨(c6_freshness_state_machine st0 "vpn" d0).1 (by decide),
    (c6_freshness_state_machine st0 "vpn" d0).2.1 [],
    (c6_freshness_state_machine stStale "vpn" d0).2.2 d1 (by decide)
      (by decide)⟩

/-! ## C3 -/

/-- C3: if the cache store is unavailable at startup — not configured, or
the `SheetsCacheService` constructor raises — `__init__` still succeeds
(it is a total function) with `sheets_cache` unset, and every discovery
search then takes the full miss path: nothing is served from cache, the
provider fan-out runs, and no cache state exists afterwards.
(`search_all_networks` never touches the cache at all: its definition has
no cache argument.) -/
theorem c3_no_cache_mode (env : InitEnv)
    (h : env.sheetsConfigured = false ∨ ∃ e, env.sheetsConnect = .error e) :
    (aggregator_init env).hasSheetsCache = false ∧
    ∀ (st : CacheStore) (kw : Option String) (force analyze : Bool)
      (nr dr : List (Except String (List Offer))) (enrich : Offer → Offer)
      (today : Date),
      (search_discovery_networks
        { cache := aggCache (aggregator_init env) st, keyword := kw
          force_refresh := force, analyze_flag := analyze
          networkResults := nr, discoveryResults := dr
          enrich := enrich, today := today }).servedFromCache = false ∧
      (search_discovery_networks
        { cache := aggCache (aggregator_init env) st, keyword := kw
          force_refresh := force, analyze_flag := analyze
          networkResults := nr, discoveryResults := dr
          enrich := enrich, today := today }).ranFanOut = true ∧
      (search_discovery_networks
        { cache := aggCache (aggregator_init env) st, keyword := kw
          force_refresh := force, analyze_flag := analyze
          networkResults := nr, discoveryResults := dr
          enrich := enrich, today := today }).cache = none := by
  have hno : (aggregator_init env).hasSheetsCache = false := by
    rcases h with h | ⟨e, h⟩ <;>
      simp [aggregator_init, h]
  refine ⟨hno, ?_⟩
  intro st kw force analyze nr dr enrich today
  have hc : aggCache (aggregator_init env) st = none := by
    simp [aggCache, hno]
  refine ⟨?_, ?_, ?_⟩ <;>
    simp [search_discovery_networks, hc]

/-- C3 witness: a concrete unconfigured environment and a concrete failing
environment, each run against the empty store with one provider outcome. -/
theorem c3_no_cache_mode_witness :
    (aggregator_init
      { sheetsConfigured := false, sheetsConnect := .ok ()
        impactConfigured := true }).hasSheetsCache = false ∧
    (aggregator_init
      { sheetsConfigured := true
        sheetsConnect := .error "connect failed"
        impactConfigured := false }).hasSheetsCache = false ∧
    (search_discovery_networks
      { cache := aggCache (aggregator_init
          { sheetsConfigured := true
            sheetsConnect := .error "connect failed"
            impactConfigured := false }) st0
        keyword := some "vpn", force_refresh := false, analyze_flag := true
        networkResults := [Except.ok [oNew]], discoveryResults := []
        enrich := id, today := d0 }).servedFromCache = false :=
  ⟨(c3_no_cache_mode _ (Or.inl rfl)).1,
    (c3_no_cache_mode _ (Or.inr ⟨"connect failed", rfl⟩)).1,
    ((c3_no_cache_mode _ (Or.inr ⟨"connect failed", rfl⟩)).2 st0
      (some "vpn") false true [Except.ok [oNew]] [] id d0).1⟩

/-! ## C1 -/

/-- C1: contrary to the claim, an empty provider fan-out is never written
back — `search_discovery_networks` guards the write with
`if self.sheets_cache and all_offers:`, so with a configured cache, a key
that is not fresh, and providers that all return nothing, the returned list
is empty AND the store afterwards is exactly the store before: no empty
table is written and the key's freshness record is not stamped (the
dedicated empty-list branch inside `write_offers` is unreachable from this
call site). -/
theorem c1_empty_result_not_cached (inp : DiscoveryInput) (st : CacheStore)
    (hc : inp.cache = some st)
    (hmiss : is_cache_fresh st (effectiveKeyword inp.keyword) inp.today = false)
    (hempty : fanOut inp.networkResults ++ fanOut inp.discoveryResults = []) :
    (search_discovery_networks inp).offers = [] ∧
      (search_discovery_networks inp).cache = some st := by
  constructor <;>
    simp [search_discovery_networks, hc, hmiss, hempty]

/-- C1 witness: the empty-fan-out run against the empty store with keyword
`"vpn"` — afterwards the store is unchanged and `"vpn"` is still not
fresh, so the next same-day search will repeat the provider calls. -/
theorem c1_empty_result_not_cached_witness :
    (search_discovery_networks inpEmptyRun).offers = [] ∧
      (search_discovery_networks inpEmptyRun).cache = some st0 ∧
      is_cache_fresh st0 "vpn" d0 = false :=
  ⟨(c1_empty_result_not_cached inpEmptyRun st0 rfl (by decide) (by decide)).1,
    (c1_empty_result_not_cached inpEmptyRun st0 rfl (by decide) (by decide)).2,
    by decide⟩

/-! ## C7 -/

/-- C7: with `force_refresh=true` the cached rows are never served and the
provider fan-out always executes, for every input (this half of the claim
holds); the freshness-update half fails on empty fan-outs, shown at the
witness's concrete stale-store run. -/
theorem c7_force_refresh (inp : DiscoveryInput)
    (hforce : inp.force_refresh = true) :
    (search_discovery_networks inp).servedFromCache = false ∧
      (search_discovery_networks inp).ranFanOut = true := by
  rcases hc : inp.cache with _ | st <;>
    constructor <;>
      simp [search_discovery_networks, hc, hforce]

/-- C7 witness: a force-refresh against a fresh store with a non-empty
cached table serves the provider result, not the cached row; and a
force-refresh whose providers all return nothing leaves the stale store
untouched — the freshness record still holds yesterday's date, so it is
NOT updated to today as the claim requires. -/
theorem c7_force_refresh_witness :
    (search_discovery_networks inpForceFresh).servedFromCache = false ∧
      (search_discovery_networks inpForceFresh).ranFanOut = true ∧
      (search_discovery_networks inpForceFresh).offers = [oNew] ∧
      is_cache_fresh stFresh "vpn" d0 = true ∧
      read_offers stFresh "vpn" = [oCached] ∧
      (search_discovery_networks inpForceEmpty).ranFanOut = true ∧
      (search_discovery_networks inpForceEmpty).cache = some stStale ∧
      is_cache_fresh stStale "vpn" d0 = false :=
  ⟨(c7_force_refresh inpForceFresh rfl).1,
    (c7_force_refresh inpForceFresh rfl).2,
    by decide, by decide, by decide,
    (c7_force_refresh inpForceEmpty rfl).2,
    by decide, by decide⟩

/-! ## C8 -/

theorem scoreDesc_trans (a b c : Offer) (h1 : scoreDesc a b = true)
    (h2 : scoreDesc b c = true) : scoreDesc a c = true := by
  simp only [scoreDesc, decide_eq_true_eq] at h1 h2 ⊢
  exact le_trans h2 h1

theorem scoreDesc_total (a b : Offer) : (scoreDesc a b || scoreDesc b a) = true := by
  simp only [scoreDesc, Bool.or_eq_true, decide_eq_true_eq]
  exact le_total (pyOr0 b.youtube_score) (pyOr0 a.youtube_score)

/-- C8 (amended): for a *positive* `min_commission` threshold,
`search_all_networks` returns no offer whose commission value is absent or
below the threshold, and the returned list is sorted in descending order of
suitability score with an absent score treated as 0. -/
theorem c8_search_all_networks (results : List (Except String (List Offer)))
    (t : Rat) (ht : 0 < t) :
    (∀ o ∈ search_all_networks results (some t),
      ∃ v, o.commission_value = some v ∧ t ≤ v) ∧
    (search_all_networks results (some t)).Pairwise
      (fun a b => pyOr0 b.youtube_score ≤ pyOr0 a.youtube_score) := by
  have htr : ratTruthy (some t) = true := by
    simp only [ratTruthy, bne_iff_ne, ne_eq, decide_eq_true_eq]
    exact ht.ne'
  constructor
  · intro o ho
    simp only [search_all_networks, htr, if_true] at ho
    rw [List.mem_mergeSort, List.mem_filter] at ho
    obtain ⟨-, hcond⟩ := ho
    rcases hcv : o.commission_value with _ | v
    · rw [hcv] at hcond
      simp [ratTruthy] at hcond
    · refine ⟨v, rfl, ?_⟩
      rw [hcv] at hcond
      simp only [ratTruthy, Option.getD_some, Bool.and_eq_true,
        decide_eq_true_eq] at hcond
      exact hcond.2
  · simp only [search_all_networks, htr, if_true]
    refine List.Pairwise.imp ?_
      (List.sorted_mergeSort scoreDesc_trans scoreDesc_total _)
    intro a b h
    simpa [scoreDesc] using h

/-- C8 counterexample: the threshold `min_commission = 0.0` is given but
Python-falsy, so the filter is skipped entirely and an offer with an
*absent* commission value is returned — the claim as stated (any given
threshold) is false. -/
theorem c8_counterexample :
    search_all_networks [Except.ok [oNoCv]] (some 0) = [oNoCv] ∧
      oNoCv.commission_value = none := by
  constructor
  · simp [search_all_networks, fanOut, ratTruthy]
  · rfl

/-- C8 witness: the amended claim applied at threshold 5 over one provider
returning three offers (one below threshold, one with no commission
value, one passing). -/
theorem c8_search_all_networks_witness :
    (search_all_networks [Except.ok [oCv7, oNoCv, oCv10]] (some 5)).Pairwise
      (fun a b => pyOr0 b.youtube_score ≤ pyOr0 a.youtube_score) ∧
      (∃ v, oCv10.commission_value = some v ∧ (5 : Rat) ≤ v) :=
  ⟨(c8_search_all_networks [Except.ok [oCv7, oNoCv, oCv10]] 5 (by norm_num)).2,
    (c8_search_all_networks [Except.ok [oCv7, oNoCv, oCv10]] 5 (by norm_num)).1
      oCv10 (by
        simp only [search_all_networks, List.mem_mergeSort, List.mem_filter]
        norm_num [fanOut, ratTruthy, oCv7, oNoCv, oCv10])⟩

/-! ## C2 -/

theorem ratTruthy_false_getD {v : Option Rat} (h : ratTruthy v = false) :
    v.getD 0 = 0 := by
  rcases v with _ | q
  · rfl
  · simpa [ratTruthy] using h

theorem epcContribution (epc : Option Rat) :
    (if ratTruthy epc then (0 : Rat) + min (epc.getD 0 * 20) 40 else 0) =
      epcComponent epc := by
  unfold epcComponent
  by_cases h : ratTruthy epc = true
  · simp [h]
  · have h0 : epc.getD 0 = 0 := ratTruthy_false_getD (by simpa using h)
    rw [if_neg h, h0]
    norm_num

theorem commissionContribution (ct : Option String) (cv : Option Rat)
    (s : Rat) :
    (if ratTruthy cv then
      if ct = some "CPA" then s + min (cv.getD 0 / 2) 30
      else if ct = some "CPS" then s + min (cv.getD 0 * 2) 30
      else s
    else s) = s + commissionComponent ct cv := by
  unfold commissionComponent
  by_cases h : ratTruthy cv = true
  · rw [if_pos h]
    split_ifs <;> ring
  · have h0 : cv.getD 0 = 0 := ratTruthy_false_getD (by simpa using h)
    rw [if_neg h, h0]
    split_ifs <;> norm_num

theorem popularityContribution (p : Option Rat) (s : Rat) :
    (if ratTruthy p then s + min (p.getD 0 / 3) 30 else s) =
      s + popularityComponent p := by
  unfold popularityComponent
  by_cases h : ratTruthy p = true
  · rw [if_pos h]
  · have h0 : p.getD 0 = 0 := ratTruthy_false_getD (by simpa using h)
    rw [if_neg h, h0]
    norm_num

theorem calculate_youtube_score_closed (o : Offer) :
    o.calculate_youtube_score =
      round2 (min (epcComponent o.epc +
        commissionComponent o.commission_type o.commission_value +
        popularityComponent o.popularity_score) 100) := by
  simp only [Offer.calculate_youtube_score, epcContribution,
    commissionContribution, popularityContribution]

/-- C2 (amended): the suitability score is the weighted sum — EPC component
`min(epc*20, 40)`; commission component keyed on the code's commission-type
strings, `"CPA"`: `min(value/2, 30)`, `"CPS"`: `min(value*2, 30)`, any
other type (including the `"Fixed"`/`"Percentage"` strings the discovery
providers emit): 0; popularity component `min(popularity/3, 30)` — capped
at 100 and rounded half-to-even to two decimals; each absent input
contributes exactly 0. -/
theorem c2_suitability_formula (o : Offer) :
    o.calculate_youtube_score =
      round2 (min (min (o.epc.getD 0 * 20) 40 +
        (if o.commission_type = some "CPA" then
          min (o.commission_value.getD 0 / 2) 30
        else if o.commission_type = some "CPS" then
          min (o.commission_value.getD 0 * 2) 30
        else 0) +
        min (o.popularity_score.getD 0 / 3) 30) 100) := by
  rw [calculate_youtube_score_closed]
  rfl

/-- C2 counterexample: an offer with `commission_type="Fixed"` and
`commission_value=20` — the claim's formula (kind `Fixed` ↦ `min(value/2,
30)`) yields 10, but the code's commission branch only matches `"CPA"` /
`"CPS"` and scores it 0. -/
theorem c2_counterexample :
    Offer.calculate_youtube_score oFix = 0 ∧ claimSuitability oFix = 10 ∧
      Offer.calculate_youtube_score oFix ≠ claimSuitability oFix := by
  have e1 : Offer.calculate_youtube_score oFix = 0 := by
    simp only [Offer.calculate_youtube_score, oFix, ratTruthy]
    simp
    norm_num [round2, roundHalfEven, Int.fract]
  have e2 : claimSuitability oFix = 10 := by
    simp only [claimSuitability, oFix]
    simp
    norm_num
  refine ⟨e1, e2, ?_⟩
  rw [e1, e2]
  norm_num

/-! ## C9 -/

theorem epcComponent_bounds {epc : Option Rat} (h : 0 ≤ epc.getD 0) :
    0 ≤ epcComponent epc ∧ epcComponent epc ≤ 40 := by
  unfold epcComponent
  exact ⟨le_min (by nlinarith) (by norm_num), min_le_right _ _⟩

theorem commissionComponent_bounds (ct : Option String) {cv : Option Rat}
    (h : 0 ≤ cv.getD 0) :
    0 ≤ commissionComponent ct cv ∧ commissionComponent ct cv ≤ 30 := by
  unfold commissionComponent
  split_ifs
  · exact ⟨le_min (by linarith) (by norm_num), min_le_right _ _⟩
  · exact ⟨le_min (by nlinarith) (by norm_num), min_le_right _ _⟩
  · norm_num

theorem popularityComponent_bounds {p : Option Rat} (h : 0 ≤ p.getD 0) :
    0 ≤ popularityComponent p ∧ popularityComponent p ≤ 30 := by
  unfold popularityComponent
  exact ⟨le_min (by linarith) (by norm_num), min_le_right _ _⟩

theorem epcComponent_mono {e₁ e₂ : Rat} (h : e₁ ≤ e₂) :
    epcComponent (some e₁) ≤ epcComponent (some e₂) := by
  unfold epcComponent
  simp only [Option.getD_some]
  exact min_le_min (by linarith) le_rfl

theorem commissionComponent_mono (ct : Option String) {v₁ v₂ : Rat}
    (h : v₁ ≤ v₂) :
    commissionComponent ct (some v₁) ≤ commissionComponent ct (some v₂) := by
  unfold commissionComponent
  simp only [Option.getD_some]
  split_ifs
  · exact min_le_min (by linarith) le_rfl
  · exact min_le_min (by linarith) le_rfl
  · exact le_rfl

theorem popularityComponent_mono {p₁ p₂ : Rat} (h : p₁ ≤ p₂) :
    popularityComponent (some p₁) ≤ popularityComponent (some p₂) := by
  unfold popularityComponent
  simp only [Option.getD_some]
  exact min_le_min (by linarith) le_rfl

/-- C9 (amended): for every Offer whose present EPC, commission-value and
popularity inputs are non-negative, the suitability score lies in [0,100]
(for a negative input the code can go below 0 — see the counterexample);
and for all Offers without restriction the score is monotonically
non-decreasing in EPC, in commission value (the update leaves the
commission kind fixed), and in popularity, holding all other fields
fixed. -/
theorem c9_suitability_range_mono :
    (∀ o : Offer, 0 ≤ o.epc.getD 0 → 0 ≤ o.commission_value.getD 0 →
      0 ≤ o.popularity_score.getD 0 →
      0 ≤ o.calculate_youtube_score ∧ o.calculate_youtube_score ≤ 100) ∧
    (∀ (o : Offer) (e₁ e₂ : Rat), e₁ ≤ e₂ →
      Offer.calculate_youtube_score { o with epc := some e₁ } ≤
        Offer.calculate_youtube_score { o with epc := some e₂ }) ∧
    (∀ (o : Offer) (v₁ v₂ : Rat), v₁ ≤ v₂ →
      Offer.calculate_youtube_score { o with commission_value := some v₁ } ≤
        Offer.calculate_youtube_score { o with commission_value := some v₂ }) ∧
    (∀ (o : Offer) (p₁ p₂ : Rat), p₁ ≤ p₂ →
      Offer.calculate_youtube_score { o with popularity_score := some p₁ } ≤
        Offer.calculate_youtube_score { o with popularity_score := some p₂ }) := by
  refine ⟨?_, ?_, ?_, ?_⟩
  · intro o hE hC hP
    rw [calculate_youtube_score_closed]
    have h1 := epcComponent_bounds hE
    have h2 := commissionComponent_bounds o.commission_type hC
    have h3 := popularityComponent_bounds hP
    constructor
    · exact round2_nonneg (le_min (by linarith) (by norm_num))
    · exact round2_le_100 (min_le_right _ _)
  · intro o e₁ e₂ h
    rw [calculate_youtube_score_closed, calculate_youtube_score_closed]
    exact round2_mono (min_le_min
      (add_le_add (add_le_add (epcComponent_mono h) le_rfl) le_rfl) le_rfl)
  · intro o v₁ v₂ h
    rw [calculate_youtube_score_closed, calculate_youtube_score_closed]
    exact round2_mono (min_le_min
      (add_le_add (add_le_add le_rfl (commissionComponent_mono _ h)) le_rfl)
      le_rfl)
  · intro o p₁ p₂ h
    rw [calculate_youtube_score_closed, calculate_youtube_score_closed]
    exact round2_mono (min_le_min
      (add_le_add le_rfl (popularityComponent_mono h)) le_rfl)

/-- C9 counterexample: an offer whose only set metric is `epc = -1` gets
suitability score -20, outside [0,100] — the code caps above at 100 but
never clamps below 0. -/
theorem c9_counterexample :
    Offer.calculate_youtube_score oNeg = -20 ∧
      Offer.calculate_youtube_score oNeg < 0 := by
  have e1 : Offer.calculate_youtube_score oNeg = -20 := by
    simp only [Offer.calculate_youtube_score, oNeg, ratTruthy]
    simp
    norm_num [round2, roundHalfEven, Int.fract]
  exact ⟨e1, by rw [e1]; norm_num⟩

/-- C9 witness: the range bound applied at an offer with no metrics set,
and each monotonicity part applied at concrete value pairs. -/
theorem c9_suitability_range_mono_witness :
    (0 ≤ Offer.calculate_youtube_score oNoCv ∧
      Offer.calculate_youtube_score oNoCv ≤ 100) ∧
    Offer.calculate_youtube_score { oNoCv with epc := some 1 } ≤
      Offer.calculate_youtube_score { oNoCv with epc := some 2 } ∧
    Offer.calculate_youtube_score { oNoCv with commission_value := some 3 } ≤
      Offer.calculate_youtube_score { oNoCv with commission_value := some 4 } ∧
    Offer.calculate_youtube_score { oNoCv with popularity_score := some 5 } ≤
      Offer.calculate_youtube_score { oNoCv with popularity_score := some 6 } :=
  ⟨c9_suitability_range_mono.1 oNoCv (by decide) (by decide) (by decide),
    c9_suitability_range_mono.2.1 oNoCv 1 2 (by norm_num),
    c9_suitability_range_mono.2.2.1 oNoCv 3 4 (by norm_num),
    c9_suitability_range_mono.2.2.2 oNoCv 5 6 (by norm_num)⟩

/-! ## C5: JSON round trip -/

theorem asString_data (s : String) : s.data.asString = s := rfl

theorem jsonStrAux_quote (acc rest : List Char) :
    jsonStrAux acc ('"' :: rest) = some (acc.reverse.asString, rest) := by
  rw [jsonStrAux.eq_def]
  simp

theorem jsonStrAux_backslash (acc X : List Char) (c : Char) :
    jsonStrAux acc ('\\' :: c :: X) = jsonStrAux (c :: acc) X := by
  rw [jsonStrAux.eq_def]
  simp

theorem jsonStrAux_plain (acc X : List Char) {c : Char} (h1 : c ≠ '"')
    (h2 : c ≠ '\\') : jsonStrAux acc (c :: X) = jsonStrAux (c :: acc) X := by
  rw [jsonStrAux.eq_def]
  simp [h1, h2]

theorem jsonStrAux_esc (s : List Char) : ∀ (acc rest : List Char),
    jsonStrAux acc (jsonEsc s ++ '"' :: rest) =
      some ((acc.reverse ++ s).asString, rest) := by
  induction s with
  | nil =>
    intro acc rest
    simp [jsonEsc, jsonStrAux_quote]
  | cons c cs ih =>
    intro acc rest
    by_cases hesc : c = '"' ∨ c = '\\'
    · have he : jsonEsc (c :: cs) = '\\' :: c :: jsonEsc cs := by
        rcases hesc with h | h <;> simp [jsonEsc, h]
      rw [he]
      simp only [List.cons_append]
      rw [jsonStrAux_backslash, ih]
      simp
    · push_neg at hesc
      obtain ⟨h1, h2⟩ := hesc
      have he : jsonEsc (c :: cs) = c :: jsonEsc cs := by
        simp [jsonEsc, h1, h2]
      rw [he]
      simp only [List.cons_append]
      rw [jsonStrAux_plain _ _ h1 h2, ih]
      simp

theorem jsonBody_length (l : List String) : l.length ≤ (jsonBody l).length := by
  induction l with
  | nil => simp [jsonBody]
  | cons s ss ih =>
    rcases ss with _ | ⟨s', ss'⟩
    · simp [jsonBody, jsonQuoteChars]
    · simp only [jsonBody, jsonQuoteChars, List.length_cons,
        List.length_append] at ih ⊢
      omega

theorem jsonElemsAux_body : ∀ (l : List String), l ≠ [] →
    ∀ (fuel : Nat), l.length ≤ fuel → ∀ (rest : List Char),
      jsonElemsAux fuel (jsonBody l ++ ']' :: rest) = some (l, rest) := by
  intro l
  induction l with
  | nil => intro h; exact absurd rfl h
  | cons s ss ih =>
    intro _ fuel hf rest
    rcases fuel with _ | f
    · simp at hf
    rcases ss with _ | ⟨s', ss'⟩
    · have hb : jsonBody [s] ++ ']' :: rest =
          '"' :: (jsonEsc s.data ++ '"' :: ']' :: rest) := by
        simp [jsonBody, jsonQuoteChars]
      rw [hb, jsonElemsAux.eq_def]
      simp only [jsonStrAux_esc]
      simp [asString_data]
    · have hb : jsonBody (s :: s' :: ss') ++ ']' :: rest =
          '"' :: (jsonEsc s.data ++ '"' :: ',' :: ' ' ::
            (jsonBody (s' :: ss') ++ ']' :: rest)) := by
        simp [jsonBody, jsonQuoteChars]
      have hrec : jsonElemsAux f (jsonBody (s' :: ss') ++ ']' :: rest) =
          some (s' :: ss', rest) := by
        refine ih (by simp) f ?_ rest
        simp only [List.length_cons] at hf ⊢
        omega
      rw [hb, jsonElemsAux.eq_def]
      simp only [jsonStrAux_esc]
      simp [hrec, asString_data]

theorem jsonDumps_data (l : List String) :
    (jsonDumps l).data = '[' :: (jsonBody l ++ [']']) := rfl

theorem jsonDumps_ne_empty (l : List String) : jsonDumps l ≠ "" := by
  intro h
  have hd := congrArg String.data h
  rw [jsonDumps_data] at hd
  simp at hd

theorem jsonBody_head (s : String) (ss : List String) :
    ∃ t, jsonBody (s :: ss) = '"' :: t := by
  rcases ss with _ | ⟨s', ss'⟩
  · exact ⟨jsonEsc s.data ++ ['"'], by simp [jsonBody, jsonQuoteChars]⟩
  · exact ⟨jsonEsc s.data ++ '"' :: ',' :: ' ' :: jsonBody (s' :: ss'), by
      simp [jsonBody, jsonQuoteChars]⟩

theorem jsonLoads_jsonDumps (l : List String) (hl : l ≠ []) :
    jsonLoads? (jsonDumps l) = some l := by
  rcases l with _ | ⟨s, ss⟩
  · exact absurd rfl hl
  obtain ⟨t, ht⟩ := jsonBody_head s ss
  have hlen := jsonBody_length (s :: ss)
  have hbody := jsonElemsAux_body (s :: ss) (by simp)
    ((jsonBody (s :: ss) ++ [']']).length + 1)
    (by simp only [List.length_append]; omega) []
  unfold jsonLoads?
  rw [jsonDumps_data]
  have hne : jsonBody (s :: ss) ++ [']'] ≠ [']'] := by
    rw [ht]
    simp
  simp only [hne, if_false, if_pos rfl]
  simp only [show jsonBody (s :: ss) ++ [']'] =
      jsonBody (s :: ss) ++ ']' :: [] from rfl] at hbody ⊢
  rw [hbody]
  simp

theorem cellToStr_optStrCell {v : Option String} (h : v ≠ some "") :
    cellToStr (optStrCell v) = v := by
  rcases v with _ | s
  · rfl
  · have hs : s ≠ "" := fun he => h (by rw [he])
    simp [optStrCell, cellToStr, hs]

theorem cellToFloat_optRatCell (v : Option Rat) :
    cellToFloat (optRatCell v) = v := by
  rcases v with _ | q <;> rfl

theorem pyInt_intCast (i : Int) : pyInt (i : Rat) = i := by
  unfold pyInt
  by_cases h : (i : Rat) < 0
  · rw [if_pos h, show -(i : Rat) = ((-i : Int) : Rat) by push_cast; ring,
      Int.floor_intCast]
    ring
  · rw [if_neg h, Int.floor_intCast]

theorem cellToInt_optIntCell (v : Option Int) :
    cellToInt (optIntCell v) = v := by
  rcases v with _ | i
  · rfl
  · simp [optIntCell, cellToInt, cellToFloat, pyInt_intCast]

theorem cellStr_strCell (s : String) : cellStr (strCell s) = s := rfl

theorem cellCurrency_strCell {s : String} (h : s ≠ "") :
    cellCurrency (strCell s) = s := by
  simp [strCell, cellCurrency, h]

theorem cellRk_rkCell {v : Option (List String)} (h : v ≠ some []) :
    cellRk (rkCell v) = v := by
  rcases v with _ | l
  · rfl
  · have hl : l ≠ [] := fun he => h (by rw [he])
    simp only [rkCell, if_neg hl]
    simp only [cellRk, if_neg (jsonDumps_ne_empty l)]
    rw [jsonLoads_jsonDumps l hl]

theorem row_to_offer_offer_to_row (o : Offer) (h : roundtrippable o = true) :
    row_to_offer (offer_to_row o) = some o := by
  simp only [roundtrippable, Bool.and_eq_true, bne_iff_ne, ne_eq] at h
  obtain ⟨⟨⟨⟨⟨⟨⟨⟨⟨⟨⟨⟨⟨⟨hcc, hd⟩, hct⟩, hcat⟩, hsub⟩, htu⟩, hlu⟩, hst⟩,
    hpr⟩, hpa⟩, htm⟩, hgp⟩, hcl⟩, hif⟩, hrk⟩ := h
  unfold row_to_offer offer_to_row
  simp only [cellToStr_optStrCell hd, cellToStr_optStrCell hct,
    cellToStr_optStrCell hcat, cellToStr_optStrCell hsub,
    cellToStr_optStrCell htu, cellToStr_optStrCell hlu,
    cellToStr_optStrCell hst, cellToStr_optStrCell hpr,
    cellToStr_optStrCell hpa, cellToStr_optStrCell htm,
    cellToStr_optStrCell hgp, cellToStr_optStrCell hcl,
    cellToStr_optStrCell hif, cellToFloat_optRatCell,
    cellToInt_optIntCell, cellStr_strCell, cellCurrency_strCell hcc,
    cellRk_rkCell hrk]

theorem tabFind_tabSet (tables : List (String × List Row)) (k : String)
    (rows : List Row) : tabFind (tabSet tables k rows) k = some rows := by
  induction tables with
  | nil => simp [tabSet, tabFind]
  | cons t ts ih =>
    by_cases htk : t.1 = k
    · simp [tabSet, htk, tabFind]
    · have hbeq : (t.1 == k) = false := by simp [htk]
      simpa [tabSet, if_neg htk, tabFind, List.find?_cons, hbeq] using ih

theorem read_rows_roundtrip (offers : List Offer)
    (h : ∀ o ∈ offers, roundtrippable o = true) :
    (offers.map offer_to_row).filterMap row_to_offer = offers := by
  induction offers with
  | nil => rfl
  | cons o os ih =>
    simp only [List.map_cons, List.filterMap_cons,
      row_to_offer_offer_to_row o (h o (by simp))]
    rw [ih fun x hx => h x (by simp [hx])]

/-- C5 (amended): for every key, store, date and offer list in which no
string-typed field is set to the empty string and `related_keywords` is not
set to the empty list, writing the list twice and reading the key back
yields the written list row-for-row — the row schema loses no such field.
(The excluded values collide with the schema's empty-cell encoding of
"absent"; see the counterexample.) -/
theorem c5_cache_roundtrip (st : CacheStore) (k : String)
    (offers : List Offer) (today : Date)
    (h : ∀ o ∈ offers, roundtrippable o = true) :
    read_offers
      (write_offers (write_offers st k offers today) k offers today) k =
      offers := by
  unfold write_offers set_last_updated read_offers
  simp only [tabFind_tabSet]
  exact read_rows_roundtrip offers h

/-- C5 counterexample: an offer whose `related_keywords` is the empty list
— a set (non-absent) field.  `_offer_to_row` writes it as an empty cell
(`json.dumps(value) if value else ""`), so reading back yields `None`: the
field is lost and the claim as stated fails. -/
theorem c5_counterexample :
    read_offers
      (write_offers (write_offers st0 "vpn" [oEmptyRk] d0) "vpn" [oEmptyRk]
        d0) "vpn" ≠ [oEmptyRk] ∧
      read_offers
        (write_offers (write_offers st0 "vpn" [oEmptyRk] d0) "vpn"
          [oEmptyRk] d0) "vpn" =
        [{ oEmptyRk with related_keywords := none }] := by
  constructor <;> decide

/-- C5 witness: the amended round trip applied to a two-offer list with a
non-empty keyword list, a description, and absent numeric fields. -/
theorem c5_cache_roundtrip_witness :
    read_offers
      (write_offers (write_offers st0 "vpn" [oRk, oNoCv] d0) "vpn"
        [oRk, oNoCv] d0) "vpn" = [oRk, oNoCv] :=
  c5_cache_roundtrip st0 "vpn" [oRk, oNoCv] d0 (by decide)
